import Mathlib

/-!
Verification of the ShippingCarrier repository core: the OAuth token
lifecycle manager (src/core/auth/token-manager.ts), the UPS rate
operation with its error-classification chain
(src/carriers/ups/operations/rate.operation.ts), and the pure
request/response mapper (src/carriers/ups/mappers/rate.mapper.ts).

Times are modelled as integers (milliseconds since epoch, as returned by
Date.now()).  Monetary values that appear on the wire as decimal strings
are modelled as rationals (String/parseFloat are injective on the
numeric strings the carrier emits).  JavaScript string truthiness
(the empty string is falsy) is modelled explicitly where the source
relies on it.
-/

namespace ShippingCarrier

/-- Character-list matching: does the needle occur at the head of the hay? -/
def matchesAt : List Char → List Char → Bool
  | [], _ => true
  | _ :: _, [] => false
  | c :: cs, d :: ds => c == d && matchesAt cs ds

/-- Does the needle occur anywhere in the hay (JavaScript String.includes)? -/
def containsSeq (needle : List Char) : List Char → Bool
  | [] => needle.isEmpty
  | c :: rest => matchesAt needle (c :: rest) || containsSeq needle rest

/-- JavaScript `hay.includes(needle)`. -/
def strContains (hay needle : String) : Bool :=
  containsSeq needle.toList hay.toList

/-- JavaScript `s || d` for strings: the empty string is falsy. -/
def jsOr (o : Option String) (d : String) : String :=
  match o with
  | some s => if s = "" then d else s
  | none => d

/-! ## Token lifecycle manager (src/core/auth/token-manager.ts)

The manager is embedded as an event machine.  JavaScript runs each
`getToken()` call synchronously up to its first `await`, so one event of
the machine corresponds to one such synchronous segment:

* `Event.call t` — a `getToken()` invocation at time `t` running from its
  start to the point where it either returns a cached token, returns the
  in-flight promise, or starts `refresh()` (which synchronously starts the
  injected fetch) and suspends awaiting it;
* `Event.settle t r` — the outstanding fetch settles at time `t` with
  result `r`, running the `refresh` continuation (store token and expiry
  on success) and, on success, the initiating caller's continuation
  (`this.refreshing = undefined`), which runs in the microtask immediately
  after with no other `getToken` segment interleaved.

On failure the line `this.refreshing = undefined` is **not** executed in
the source (it sits after `await this.refreshing`, which throws), so the
settle step leaves the marker set in that case. -/

/-- State of one refresh promise. -/
inductive PromiseState where
  | pending
  | resolved (tok : String)
  | rejected (msg : String)
deriving DecidableEq, Repr

/-- The fields of the TokenManager instance, plus the table of every
refresh promise it has created (index = creation order). -/
structure TMState where
  token : Option String
  expiresAt : Option Int
  refreshing : Option Nat
  promises : List PromiseState
deriving DecidableEq, Repr

/-- A freshly constructed manager. -/
def TMState.cold : TMState := ⟨none, none, none, []⟩

/-- The guard `this.token && Date.now() < this.expiresAt!` of getToken.
JavaScript truthiness: an empty token string is falsy, and a comparison
against an undefined expiry is false. -/
def cacheHit (t : Int) (s : TMState) : Bool :=
  match s.token, s.expiresAt with
  | some tok, some e => tok != "" && decide (t < e)
  | some _, none => false
  | none, _ => false

/-- What one `getToken()` call observes at its first suspension point:
either an immediately returned cached token, or the index of the refresh
promise it awaits. -/
inductive CallOutcome where
  | immediate (tok : String)
  | awaits (i : Nat)
deriving DecidableEq, Repr

/-- Result of the injected `fetchToken` capability:
`{access_token, expires_in}` (seconds) or a rejection. -/
inductive FetchResult where
  | ok (accessToken : String) (expiresIn : Int)
  | err (msg : String)
deriving DecidableEq, Repr

/-- Synchronous segment of `getToken()` up to its first suspension:
return the cached token (line 10-12), join the in-flight refresh
(line 14-16), or start a new refresh (line 18-19, which synchronously
invokes the injected fetch inside `refresh()`). -/
def getTokenStep (t : Int) (s : TMState) : TMState × CallOutcome :=
  if cacheHit t s then
    (s, .immediate (s.token.getD ""))
  else
    match s.refreshing with
    | some i => (s, .awaits i)
    | none =>
      let i := s.promises.length
      ({ s with refreshing := some i, promises := s.promises ++ [.pending] },
       .awaits i)

/-- The outstanding fetch settles.  On success, `refresh` stores
`this.token = res.access_token` and
`this.expiresAt = Date.now() + res.expires_in * 1000 - 30000`
(lines 27-33), and the initiating caller's continuation clears
`this.refreshing` (line 21).  On failure the rejection skips that line,
so the marker stays set. -/
def settleRefresh (t : Int) (r : FetchResult) (s : TMState) : TMState :=
  match s.refreshing with
  | none => s
  | some i =>
    if s.promises.get? i = some .pending then
      match r with
      | .ok tok ei =>
        { token := some tok
          expiresAt := some (t + ei * 1000 - 30000)
          refreshing := none
          promises := s.promises.set i (.resolved tok) }
      | .err m => { s with promises := s.promises.set i (.rejected m) }
    else s

/-- An event of the machine. -/
inductive Event where
  | call (t : Int)
  | settle (t : Int) (r : FetchResult)
deriving DecidableEq, Repr

/-- One step; a call event also produces the caller's outcome. -/
def step (s : TMState) : Event → TMState × Option CallOutcome
  | .call t => let p := getTokenStep t s; (p.1, some p.2)
  | .settle t r => (settleRefresh t r s, none)

/-- Run a sequence of events, collecting the outcome of every call. -/
def run (s : TMState) : List Event → TMState × List CallOutcome
  | [] => (s, [])
  | e :: es =>
    let p := step s e
    let q := run p.1 es
    (q.1, p.2.toList ++ q.2)

/-- Number of fetches the manager has started over its lifetime. -/
def fetchCount (s : TMState) : Nat := s.promises.length

/-- Number of fetches started but not yet settled. -/
def outstanding (s : TMState) : Nat :=
  s.promises.countP (· == PromiseState.pending)

/-- Final result a caller eventually observes. -/
inductive CallResult where
  | value (tok : String)
  | error (msg : String)
  | stillPending
deriving DecidableEq, Repr

/-- Resolve a call outcome against the promise table of a final state. -/
def resolveOutcome (s : TMState) : CallOutcome → CallResult
  | .immediate tok => .value tok
  | .awaits i =>
    match s.promises.get? i with
    | some (.resolved tok) => .value tok
    | some (.rejected m) => .error m
    | _ => .stillPending

/-! ## Domain model (src/domain/models/rate.ts) -/

/-- Weight unit union `"LBS" | "KGS"`. -/
inductive WeightUnit where
  | LBS
  | KGS
deriving DecidableEq, Repr

/-- The string value of the union member. -/
def WeightUnit.code : WeightUnit → String
  | .LBS => "LBS"
  | .KGS => "KGS"

/-- Dimension unit union `"IN" | "CM"`. -/
inductive DimUnit where
  | IN
  | CM
deriving DecidableEq, Repr

/-- The string value of the union member. -/
def DimUnit.code : DimUnit → String
  | .IN => "IN"
  | .CM => "CM"

/-- Address interface. -/
structure Address where
  name : String
  addressLines : List String
  city : String
  state : Option String
  postalCode : String
  countryCode : String
deriving DecidableEq, Repr

/-- Package interface.  Numeric measures are modelled as rationals. -/
structure Package where
  weight : Rat
  weightUnit : WeightUnit
  length : Rat
  width : Rat
  height : Rat
  dimensionUnit : DimUnit
deriving DecidableEq, Repr

/-- RateRequest interface. -/
structure RateRequest where
  shipFrom : Address
  shipTo : Address
  packages : List Package
deriving DecidableEq, Repr

/-- RateQuote interface. -/
structure RateQuote where
  carrier : String
  serviceCode : String
  serviceName : Option String
  amount : Rat
  currency : String
  baseCharge : Option Rat
  transportationCharge : Option Rat
  alerts : Option (List String)
deriving DecidableEq, Repr

/-! ## Wire request schema and mapToUpsRequest
(src/carriers/ups/mappers/rate.mapper.ts, lines 24-183)

Numeric wire leaves are emitted by the source as `String(x)`; since that
serialization is injective on numbers, they are modelled by their numeric
value.  `NumOfPieces` is `String(request.packages.length)`, modelled by
the length itself. -/

structure WireTransactionReference where
  CustomerContext : String
  TransactionIdentifier : String
deriving DecidableEq, Repr

structure WireRequestBlock where
  TransactionReference : WireTransactionReference
deriving DecidableEq, Repr

structure WireAddress where
  AddressLine : List String
  City : String
  StateProvinceCode : String
  PostalCode : String
  CountryCode : String
deriving DecidableEq, Repr

structure WireShipper where
  Name : String
  ShipperNumber : String
  Address : WireAddress
deriving DecidableEq, Repr

structure WireParty where
  Name : String
  Address : WireAddress
deriving DecidableEq, Repr

structure WireBillShipper where
  AccountNumber : String
deriving DecidableEq, Repr

structure WireShipmentCharge where
  «Type» : String
  BillShipper : WireBillShipper
deriving DecidableEq, Repr

structure WirePaymentDetails where
  ShipmentCharge : WireShipmentCharge
deriving DecidableEq, Repr

structure WireCodeDescription where
  Code : String
  Description : String
deriving DecidableEq, Repr

structure WireDimensions where
  UnitOfMeasurement : WireCodeDescription
  Length : Rat
  Width : Rat
  Height : Rat
deriving DecidableEq, Repr

structure WirePackageWeight where
  UnitOfMeasurement : WireCodeDescription
  Weight : Rat
deriving DecidableEq, Repr

structure WirePackage where
  PackagingType : WireCodeDescription
  Dimensions : WireDimensions
  PackageWeight : WirePackageWeight
deriving DecidableEq, Repr

structure WireShipment where
  Shipper : WireShipper
  ShipTo : WireParty
  ShipFrom : WireParty
  PaymentDetails : WirePaymentDetails
  Service : WireCodeDescription
  NumOfPieces : Nat
  Package : List WirePackage
deriving DecidableEq, Repr

structure WireRateRequestBody where
  Request : WireRequestBlock
  Shipment : WireShipment
deriving DecidableEq, Repr

structure WireRateRequest where
  RateRequest : WireRateRequestBody
deriving DecidableEq, Repr

/-- Address block shared by Shipper / ShipTo / ShipFrom:
`StateProvinceCode: a.state || ""`. -/
def wireAddressOf (a : Address) : WireAddress :=
  { AddressLine := a.addressLines
    City := a.city
    StateProvinceCode := jsOr a.state ""
    PostalCode := a.postalCode
    CountryCode := a.countryCode }

/-- The mapper `mapToUpsRequest(request, shipperNumber)`.  The source
calls `randomUUID()` for `TransactionIdentifier`; that draw is made
explicit as the extra argument `uuid`, so the function captures exactly
the data flow of the source with the randomness factored out. -/
def mapToUpsRequest (request : RateRequest) (shipperNumber : String)
    (uuid : String) : WireRateRequest :=
  { RateRequest :=
    { Request :=
      { TransactionReference :=
        { CustomerContext := "RatingService"
          TransactionIdentifier := uuid } }
      Shipment :=
      { Shipper :=
        { Name := request.shipFrom.name
          ShipperNumber := shipperNumber
          Address := wireAddressOf request.shipFrom }
        ShipTo :=
        { Name := request.shipTo.name
          Address := wireAddressOf request.shipTo }
        ShipFrom :=
        { Name := request.shipFrom.name
          Address := wireAddressOf request.shipFrom }
        PaymentDetails :=
        { ShipmentCharge :=
          { «Type» := "01"
            BillShipper := { AccountNumber := shipperNumber } } }
        Service := { Code := "03", Description := "Ground" }
        NumOfPieces := request.packages.length
        Package := request.packages.map fun pkg =>
          { PackagingType := { Code := "02", Description := "Packaging" }
            Dimensions :=
            { UnitOfMeasurement :=
              { Code := pkg.dimensionUnit.code
                Description :=
                  if pkg.dimensionUnit == .IN then "Inches"
                  else "Centimeters" }
              Length := pkg.length
              Width := pkg.width
              Height := pkg.height }
            PackageWeight :=
            { UnitOfMeasurement :=
              { Code := pkg.weightUnit.code
                Description :=
                  if pkg.weightUnit == .LBS then "Pounds"
                  else "Kilograms" }
              Weight := pkg.weight } } } } }

/-- Overwrite the per-call correlation identifier, to compare two wire
documents up to the random draw. -/
def setTransactionIdentifier (w : WireRateRequest) (tid : String) :
    WireRateRequest :=
  { RateRequest :=
    { w.RateRequest with
      Request :=
      { TransactionReference :=
        { w.RateRequest.Request.TransactionReference with
          TransactionIdentifier := tid } } } }

/-! ## Wire response schema and parseUpsResponse
(src/carriers/ups/mappers/rate.mapper.ts, lines 185-257)

Optional JSON fields are `Option`; monetary leaves (decimal strings on
the wire, read through `parseFloat`) are rationals.  `RatedPackage` may
be absent, a single object, or an array, exactly as the source
distinguishes via `Array.isArray`.  The two alert locations are arrays
when present (the source ignores them unless `Array.isArray` holds, so
an absent-or-array model captures every branch it takes). -/

structure UpsAlert where
  Description : Option String
deriving DecidableEq, Repr

structure UpsService where
  Code : Option String
  Description : Option String
deriving DecidableEq, Repr

structure UpsTotalCharges where
  MonetaryValue : Option Rat
  CurrencyCode : Option String
deriving DecidableEq, Repr

structure UpsCharge where
  MonetaryValue : Option Rat
deriving DecidableEq, Repr

structure UpsRatedPackage where
  BaseServiceCharge : Option UpsCharge
  TransportationCharges : Option UpsCharge
deriving DecidableEq, Repr

/-- The `RatedPackage` slot: absent, a single object, or an array. -/
inductive RatedPackageField where
  | absent
  | single (p : UpsRatedPackage)
  | array (ps : List UpsRatedPackage)
deriving DecidableEq, Repr

structure UpsRatedShipment where
  Service : Option UpsService
  TotalCharges : Option UpsTotalCharges
  RatedPackage : RatedPackageField
  RatedShipmentAlert : Option (List UpsAlert)
deriving DecidableEq, Repr

structure UpsResponseBlock where
  Alert : Option (List UpsAlert)
deriving DecidableEq, Repr

structure UpsRateResponse where
  RatedShipment : Option UpsRatedShipment
  Response : Option UpsResponseBlock
deriving DecidableEq, Repr

/-- The JSON body handed to `parseUpsResponse`. -/
structure UpsWireResponse where
  RateResponse : Option UpsRateResponse
deriving DecidableEq, Repr

/-- `Array.isArray(RatedShipment.RatedPackage) ? RatedPackage[0]
: RatedShipment.RatedPackage` (lines 215-217); indexing an empty array
yields undefined. -/
def firstRatedPackage : RatedPackageField → Option UpsRatedPackage
  | .absent => none
  | .single p => some p
  | .array ps => ps.get? 0

/-- Collect `alert.Description` over an alert array, skipping entries
whose `Description` is absent or the (falsy) empty string, as the
`if (alert.Description)` guard does. -/
def collectAlerts (l : List UpsAlert) : List String :=
  l.filterMap fun a =>
    match a.Description with
    | some d => if d = "" then none else some d
    | none => none

/-- The per-shipment alert descriptions (lines 229-235): gathered only
when `RatedShipmentAlert` is present as an array. -/
def shipmentAlerts (rs : UpsRatedShipment) : List String :=
  match rs.RatedShipmentAlert with
  | some l => collectAlerts l
  | none => []

/-- The per-response alert descriptions (lines 237-243): gathered only
when `Response.Alert` is present as an array. -/
def responseAlerts (rr : UpsRateResponse) : List String :=
  match rr.Response with
  | some b =>
    match b.Alert with
    | some l => collectAlerts l
    | none => []
  | none => []

/-- `parseUpsResponse(response)`: throws (modelled as `Except.error`
carrying the thrown message) when the envelope or the rated shipment is
missing, and otherwise builds the single-element quote list. -/
def parseUpsResponse (response : UpsWireResponse) :
    Except String (List RateQuote) :=
  match response.RateResponse with
  | none => .error "Invalid UPS response: missing RateResponse"
  | some rr =>
    match rr.RatedShipment with
    | none => .error "Invalid UPS response: missing RatedShipment"
    | some rs =>
      let serviceCode := jsOr (rs.Service.bind (·.Code)) ""
      let serviceName := jsOr (rs.Service.bind (·.Description)) ""
      let amount := (rs.TotalCharges.bind (·.MonetaryValue)).getD 0
      let currency := jsOr (rs.TotalCharges.bind (·.CurrencyCode)) "USD"
      let ratedPackage := firstRatedPackage rs.RatedPackage
      let baseCharge :=
        (ratedPackage.bind (·.BaseServiceCharge)).bind (·.MonetaryValue)
      let transportationCharge :=
        (ratedPackage.bind (·.TransportationCharges)).bind (·.MonetaryValue)
      let alerts := shipmentAlerts rs ++ responseAlerts rr
      .ok
        [{ carrier := "UPS"
           serviceCode := serviceCode
           serviceName := if serviceName = "" then none else some serviceName
           amount := amount
           currency := currency
           baseCharge := baseCharge
           transportationCharge := transportationCharge
           alerts := if alerts.length > 0 then some alerts else none }]

/-! ## Rate operation and error classification
(src/carriers/ups/operations/rate.operation.ts, lines 49-157)

The caught value is modelled as a `JsError` record exposing the fields
the catch block inspects: `name`, `message`, `code`,
`response.{status, headers[retry-after], data}`, and whether it is a
`SyntaxError` instance.  `response.data` is modelled as the raw body
string; `retry-after` as the parsed seconds value of the header.  The
classification result is a tagged variant mirroring the error taxonomy
of src/domain/errors.ts; `rethrown e` stands for the raw error being
re-thrown as-is (line 147-149). -/

/-- The `error.response` object of a transport failure. -/
structure ErrResponse where
  status : Option Int
  retryAfter : Option Nat
  data : Option String
deriving DecidableEq, Repr

/-- The caught error value. -/
structure JsError where
  name : String
  message : String
  code : Option String
  response : Option ErrResponse
  isSyntaxError : Bool
deriving DecidableEq, Repr

/-- Outcome of the catch block: one taxonomy member, or the raw error
re-thrown as-is. -/
inductive ClassifiedError where
  | authenticationError
  | httpClientError (status : Int)
  | rateLimitError (retryAfterMs : Option Nat)
  | httpServerError (status : Int) (retryable : Bool)
  | timeoutError (timeoutMs : Nat)
  | networkError (code : Option String)
  | malformedResponseError (rawBody : Option String)
  | rethrown (e : JsError)
deriving DecidableEq, Repr

/-- `error.response?.status`. -/
def errStatus (e : JsError) : Option Int := e.response.bind (·.status)

/-- JavaScript truthiness of `error.code` (absent or empty is falsy). -/
def codeTruthy (e : JsError) : Bool :=
  match e.code with
  | some c => c != ""
  | none => false

/-- The cascade of the catch block, lines 71-156, in source order.
`JSON.stringify(x)` of a defined value is its string form and of
undefined is undefined, so both MalformedResponseError branches carry
`error.response?.data` when defined and nothing otherwise. -/
def classifyUpsError (error : JsError) : ClassifiedError :=
  if errStatus error = some 401 then
    .authenticationError
  else if errStatus error = some 400 then
    .httpClientError 400
  else if errStatus error = some 429 then
    .rateLimitError ((error.response.bind (·.retryAfter)).map (· * 1000))
  else if (errStatus error).any
      (fun st => st != 0 && decide (400 ≤ st) && decide (st < 500)) then
    .httpClientError ((errStatus error).getD 0)
  else if (errStatus error).any (fun st => st != 0 && decide (500 ≤ st)) then
    .httpServerError ((errStatus error).getD 0) true
  else if error.code = some "ECONNABORTED"
      || strContains error.message "timeout" then
    .timeoutError 30000
  else if error.code = some "ENOTFOUND" || error.code = some "ECONNREFUSED" then
    .networkError error.code
  else if strContains error.message "JSON" || error.isSyntaxError then
    .malformedResponseError (error.response.bind (·.data))
  else if strContains error.message "missing"
      || strContains error.message "RateResponse" then
    .malformedResponseError (error.response.bind (·.data))
  else if strContains error.name "Error" && codeTruthy error then
    .rethrown error
  else
    .httpServerError 500 true

/-- The error thrown by `parseUpsResponse`: a plain `Error` with the
given message — name "Error", no `code`, no `response` property, not a
`SyntaxError`. -/
def parseError (msg : String) : JsError :=
  { name := "Error", message := msg, code := none, response := none
    isSyntaxError := false }

/-- `UpsRateOperation.execute` (lines 49-157), with the two injected
collaborators represented by the outcome each produces for this call:
`tokenResult` is what `tokenManager.getToken()` settles to, and
`transportResult` what `http.post` settles to (the request payload and
headers do not influence the control flow modelled here).  Every step
runs inside the single try block, so a failure of any of them reaches
the same catch cascade. -/
def execute (tokenResult : Except JsError String)
    (transportResult : Except JsError UpsWireResponse) :
    Except ClassifiedError (List RateQuote) :=
  let body : Except JsError (List RateQuote) :=
    match tokenResult with
    | .error e => .error e
    | .ok _ =>
      match transportResult with
      | .error e => .error e
      | .ok data =>
        match parseUpsResponse data with
        | .error msg => .error (parseError msg)
        | .ok quotes => .ok quotes
  match body with
  | .ok quotes => .ok quotes
  | .error e => .error (classifyUpsError e)

/-- The classification chain as the (amended) specification words it:
status 401, then 400, then 429 with the retry-after header converted from
seconds to milliseconds when present, then any other 4xx, then any 5xx
with retryable true, then a connection-timeout code or
timeout-indicating message, then a DNS/connection-refused code, then a
JSON-parse-style failure, then a message indicating a missing expected
field or naming the response envelope, then an error already carrying a
recognizable shape (a name containing Error together with a non-empty
code) re-thrown as-is, and a 500 catch-all for anything unmatched. -/
def classifyChainSpec (error : JsError) : ClassifiedError :=
  if errStatus error = some 401 then
    .authenticationError
  else if errStatus error = some 400 then
    .httpClientError 400
  else if errStatus error = some 429 then
    .rateLimitError ((error.response.bind (·.retryAfter)).map (· * 1000))
  else if (errStatus error).any
      (fun st => decide (400 ≤ st) && decide (st < 500)) then
    .httpClientError ((errStatus error).getD 0)
  else if (errStatus error).any (fun st => decide (500 ≤ st)) then
    .httpServerError ((errStatus error).getD 0) true
  else if error.code = some "ECONNABORTED"
      || strContains error.message "timeout" then
    .timeoutError 30000
  else if error.code = some "ENOTFOUND" || error.code = some "ECONNREFUSED" then
    .networkError error.code
  else if strContains error.message "JSON" || error.isSyntaxError then
    .malformedResponseError (error.response.bind (·.data))
  else if strContains error.message "missing"
      || strContains error.message "RateResponse" then
    .malformedResponseError (error.response.bind (·.data))
  else if strContains error.name "Error" && codeTruthy error then
    .rethrown error
  else
    .httpServerError 500 true

/-- The quote `parseUpsResponse` builds once both envelope and rated
shipment are present, named so theorems can speak about its fields. -/
def quoteOf (rr : UpsRateResponse) (rs : UpsRatedShipment) : RateQuote :=
  { carrier := "UPS"
    serviceCode := jsOr (rs.Service.bind (·.Code)) ""
    serviceName :=
      if jsOr (rs.Service.bind (·.Description)) "" = "" then none
      else some (jsOr (rs.Service.bind (·.Description)) "")
    amount := (rs.TotalCharges.bind (·.MonetaryValue)).getD 0
    currency := jsOr (rs.TotalCharges.bind (·.CurrencyCode)) "USD"
    baseCharge := ((firstRatedPackage rs.RatedPackage).bind
      (·.BaseServiceCharge)).bind (·.MonetaryValue)
    transportationCharge := ((firstRatedPackage rs.RatedPackage).bind
      (·.TransportationCharges)).bind (·.MonetaryValue)
    alerts :=
      if (shipmentAlerts rs ++ responseAlerts rr).length > 0
      then some (shipmentAlerts rs ++ responseAlerts rr) else none }

/-- A rated shipment with every optional part absent. -/
def zeroShipment : UpsRatedShipment :=
  { Service := none, TotalCharges := none, RatedPackage := .absent
    RatedShipmentAlert := none }

/-- A rate response wrapping `zeroShipment`. -/
def zeroRateResponse : UpsRateResponse :=
  { RatedShipment := some zeroShipment, Response := none }

/-- A wire response wrapping `zeroRateResponse`. -/
def zeroResponse : UpsWireResponse :=
  { RateResponse := some zeroRateResponse }

/-! ## Concrete inputs used by individual claims -/

/-- A well-formed rate request with one package. -/
def c8Request : RateRequest :=
  { shipFrom :=
    { name := "Acme", addressLines := ["1 Main St"], city := "Austin"
      state := some "TX", postalCode := "73301", countryCode := "US" }
    shipTo :=
    { name := "Bob", addressLines := ["2 Oak Ave"], city := "Denver"
      state := none, postalCode := "80201", countryCode := "US" }
    packages :=
    [{ weight := 5, weightUnit := .LBS, length := 10, width := 8
       height := 6, dimensionUnit := .IN }] }

/-- A wire response whose total-charge monetary value is negative. -/
def c9Response : UpsWireResponse :=
  { RateResponse :=
      some
        { RatedShipment :=
            some
              { Service := none
                TotalCharges :=
                  some { MonetaryValue := some (-1), CurrencyCode := none }
                RatedPackage := .absent
                RatedShipmentAlert := none }
          Response := none } }

/-- The quote the parser produces for `c9Response`. -/
def c9Quote : RateQuote :=
  { carrier := "UPS", serviceCode := "", serviceName := none, amount := -1
    currency := "USD", baseCharge := none, transportationCharge := none
    alerts := none }

/-- A token-fetch failure that is a plain `Error`: no `code`, no
`response`, and a message matching none of the cascade conditions. -/
def c4TokenFailure : JsError :=
  { name := "Error", message := "token endpoint unreachable", code := none
    response := none, isSyntaxError := false }

/-- A token-fetch failure carrying an HTTP 401 from the OAuth endpoint. -/
def c4Token401Failure : JsError :=
  { name := "AxiosError", message := "Request failed with status code 401"
    code := some "ERR_BAD_REQUEST"
    response := some { status := some 401, retryAfter := none, data := none }
    isSyntaxError := false }

/-- A transport failure with no status and no code whose message contains
the word missing. -/
def c5MissingFailure : JsError :=
  { name := "CustomFailure", message := "response missing a field"
    code := none
    response := some { status := none, retryAfter := none, data := some "body" }
    isSyntaxError := false }

/-- A complete rated shipment: service, total charges, a two-entry rated
package array, and one shipment alert with a description. -/
def c7RatedShipment : UpsRatedShipment :=
  { Service := some { Code := some "03", Description := some "Ground" }
    TotalCharges :=
      some { MonetaryValue := some (1554 / 100 : Rat), CurrencyCode := some "USD" }
    RatedPackage :=
      .array
        [{ BaseServiceCharge := some { MonetaryValue := some 10 }
           TransportationCharges := some { MonetaryValue := some 5 } },
         { BaseServiceCharge := none, TransportationCharges := none }]
    RatedShipmentAlert :=
      some [{ Description := some "A1" }, { Description := none }] }

/-- A rate response wrapping `c7RatedShipment` plus one response-level alert. -/
def c7RateResponse : UpsRateResponse :=
  { RatedShipment := some c7RatedShipment
    Response := some { Alert := some [{ Description := some "A2" }] } }

/-- The wire response wrapping `c7RateResponse`. -/
def c7Response : UpsWireResponse := { RateResponse := some c7RateResponse }

/-! ## Helper lemmas for the token-manager machine -/

/-- Settling the pending promise at index `i` lowers the pending count by
exactly one. -/
lemma countP_set_of_pending (l : List PromiseState) (i : Nat) (x : PromiseState)
    (hget : l.get? i = some .pending)
    (hx : (x == PromiseState.pending) = false) :
    l.countP (· == PromiseState.pending) =
      (l.set i x).countP (· == PromiseState.pending) + 1 := by
  induction l generalizing i with
  | nil => simp at hget
  | cons a as ih =>
    cases i with
    | zero =>
      have ha : a = PromiseState.pending := by simpa using hget
      subst ha
      simp [List.countP_cons, hx]
    | succ n =>
      have h' : as.get? n = some PromiseState.pending := by simpa using hget
      have := ih n h'
      simp only [List.set_cons_succ, List.countP_cons, this]
      omega

/-- Machine invariant: at most one fetch is outstanding, and none is when
no refresh marker is set. -/
def TMInv (s : TMState) : Prop :=
  outstanding s ≤ 1 ∧ (s.refreshing = none → outstanding s = 0)

lemma tmInv_cold : TMInv TMState.cold := by
  constructor <;> simp [outstanding, TMState.cold]

lemma tmInv_step (s : TMState) (e : Event) (h : TMInv s) : TMInv (step s e).1 := by
  obtain ⟨h1, h2⟩ := h
  cases e with
  | call t =>
    simp only [step, getTokenStep]
    split
    · exact ⟨h1, h2⟩
    · cases hr : s.refreshing with
      | some i => simp only [hr]; exact ⟨h1, h2⟩
      | none =>
        have h0 := h2 hr
        simp only [hr]
        refine ⟨?_, fun hc => ?_⟩
        · show ((s.promises ++ [PromiseState.pending]).countP
            (· == PromiseState.pending)) ≤ 1
          simp only [outstanding] at h0
          simp only [List.countP_append, List.countP_cons, List.countP_nil]
          simp [h0]
        · simp at hc
  | settle t r =>
    simp only [step, settleRefresh]
    cases hr : s.refreshing with
    | none => simp only [hr]; exact ⟨h1, h2⟩
    | some i =>
      simp only [hr]
      by_cases hget : s.promises.get? i = some PromiseState.pending
      · rw [if_pos hget]
        cases r with
        | ok tok ei =>
          have hc := countP_set_of_pending s.promises i (.resolved tok) hget rfl
          simp only [outstanding] at h1
          refine ⟨?_, fun _ => ?_⟩
          · show (s.promises.set i (PromiseState.resolved tok)).countP
              (· == PromiseState.pending) ≤ 1
            omega
          · show (s.promises.set i (PromiseState.resolved tok)).countP
              (· == PromiseState.pending) = 0
            omega
        | err m =>
          have hc := countP_set_of_pending s.promises i (.rejected m) hget rfl
          simp only [outstanding] at h1
          refine ⟨?_, fun hcontra => ?_⟩
          · show (s.promises.set i (PromiseState.rejected m)).countP
              (· == PromiseState.pending) ≤ 1
            omega
          · simp at hcontra
      · rw [if_neg hget]
        exact ⟨h1, h2⟩

lemma tmInv_run (s : TMState) (es : List Event) (h : TMInv s) :
    TMInv (run s es).1 := by
  induction es generalizing s with
  | nil => simpa [run]
  | cons e es ih =>
    simp only [run]
    exact ih _ (tmInv_step s e h)

lemma run_append (s : TMState) (es1 es2 : List Event) :
    run s (es1 ++ es2) =
      ((run (run s es1).1 es2).1,
       (run s es1).2 ++ (run (run s es1).1 es2).2) := by
  induction es1 generalizing s with
  | nil => simp [run]
  | cons e es ih =>
    simp [run, ih, List.append_assoc]

/-- While a refresh is in flight on a manager with no cached token, every
further call joins promise 0 and changes nothing. -/
lemma runCalls (ts : List Int) :
    run ⟨none, none, some 0, [.pending]⟩ (ts.map .call) =
      (⟨none, none, some 0, [.pending]⟩, ts.map fun _ => .awaits 0) := by
  induction ts with
  | nil => rfl
  | cons t ts ih =>
    have hstep : step ⟨none, none, some 0, [.pending]⟩ (Event.call t) =
        (⟨none, none, some 0, [.pending]⟩, some (.awaits 0)) := rfl
    simp only [List.map_cons, run, hstep, ih, Option.toList_some,
      List.singleton_append]

/-! ## Claim theorems -/

/-- C1: Single-flight deduplication.  First, over every event trace from
a fresh manager, at most one token fetch is outstanding at any time (a
caller that finds a refresh in flight joins it instead of starting a
second one).  Second, any number of `getToken()` calls that all arrive
before the fetch settles on a cold manager start exactly one fetch, and
once that fetch succeeds every one of those callers resolves to the same
fetched token value. -/
theorem tokenManager_single_flight :
    (∀ events : List Event, outstanding (run TMState.cold events).1 ≤ 1) ∧
    (∀ (ts : List Int) (tset : Int) (tok : String) (ei : Int), ts ≠ [] →
      fetchCount
        (run TMState.cold (ts.map .call ++ [.settle tset (.ok tok ei)])).1 = 1 ∧
      (run TMState.cold (ts.map .call ++ [.settle tset (.ok tok ei)])).2.length
        = ts.length ∧
      ∀ o ∈ (run TMState.cold (ts.map .call ++ [.settle tset (.ok tok ei)])).2,
        resolveOutcome
          (run TMState.cold (ts.map .call ++ [.settle tset (.ok tok ei)])).1 o
          = .value tok) := by
  constructor
  · intro events
    exact (tmInv_run _ _ tmInv_cold).1
  · intro ts tset tok ei hne
    obtain ⟨t0, rest, rfl⟩ := List.exists_cons_of_ne_nil hne
    have hstep : step TMState.cold (Event.call t0) =
        (⟨none, none, some 0, [.pending]⟩, some (.awaits 0)) := rfl
    have hsettle :
        step (⟨none, none, some 0, [.pending]⟩ : TMState)
            (Event.settle tset (.ok tok ei)) =
          (⟨some tok, some (tset + ei * 1000 - 30000), none, [.resolved tok]⟩,
           none) := rfl
    have hrun :
        run TMState.cold
            ((t0 :: rest).map Event.call ++ [Event.settle tset (.ok tok ei)]) =
          (⟨some tok, some (tset + ei * 1000 - 30000), none, [.resolved tok]⟩,
           .awaits 0 :: rest.map fun _ => .awaits 0) := by
      simp only [List.map_cons, List.cons_append, run, hstep, List.append_eq,
        run_append, runCalls, hsettle, Option.toList_some, Option.toList_none,
        List.singleton_append, List.append_nil, List.nil_append]
    rw [hrun]
    refine ⟨rfl, by simp, ?_⟩
    intro o ho
    have : o = CallOutcome.awaits 0 := by
      rcases List.mem_cons.mp ho with h | h
      · exact h
      · rcases List.mem_map.mp h with ⟨x, _, hx⟩
        exact hx.symm
    subst this
    rfl

/-- Witness for C1: three concurrent calls on a cold manager, fetch
settling to token "tk", start exactly one fetch and all resolve to
"tk". -/
theorem tokenManager_single_flight_witness :
    fetchCount
      (run TMState.cold
        ([0, 1, 2].map .call ++ [.settle 5 (.ok "tk" 3600)])).1 = 1 ∧
    (run TMState.cold
        ([0, 1, 2].map .call ++ [.settle 5 (.ok "tk" 3600)])).2.length = 3 ∧
    ∀ o ∈ (run TMState.cold
        ([0, 1, 2].map .call ++ [.settle 5 (.ok "tk" 3600)])).2,
      resolveOutcome
        (run TMState.cold
          ([0, 1, 2].map .call ++ [.settle 5 (.ok "tk" 3600)])).1 o
        = .value "tk" :=
  tokenManager_single_flight.2 [0, 1, 2] 5 "tk" 3600 (by decide)

/-- C2 (code bug): after a failed refresh on a cold manager, the
in-flight marker is NOT cleared (the source line `this.refreshing =
undefined` sits after `await this.refreshing` and is skipped when the
await throws).  A later `getToken()` call therefore joins the dead
rejected promise — only one fetch ever happens, the later caller
receives the old failure, and no retry is possible, contradicting the
claim that the marker is cleared on failure.  The failure does propagate
unchanged and nothing is cached, as the final state shows. -/
theorem tokenManager_failed_refresh_marker_not_cleared :
    (run TMState.cold
      [.call 0, .settle 1 (.err "boom"), .call 100]).1.refreshing = some 0 ∧
    fetchCount
      (run TMState.cold [.call 0, .settle 1 (.err "boom"), .call 100]).1 = 1 ∧
    (run TMState.cold [.call 0, .settle 1 (.err "boom"), .call 100]).2
      = [.awaits 0, .awaits 0] ∧
    resolveOutcome
      (run TMState.cold [.call 0, .settle 1 (.err "boom"), .call 100]).1
      (.awaits 0) = .error "boom" ∧
    (run TMState.cold
      [.call 0, .settle 1 (.err "boom"), .call 100]).1.token = none ∧
    (run TMState.cold
      [.call 0, .settle 1 (.err "boom"), .call 100]).1.expiresAt = none :=
  ⟨rfl, rfl, rfl, rfl, rfl, rfl⟩

/-- C3: cache and expiry behaviour.  (1) `getToken()` returns a cached
token immediately with no fetch exactly when a (non-empty) token is
stored and the call time is strictly before `expiresAt`.  (2) A
successful refresh settling at time `t` stores
`expiresAt = t + expiresInSeconds * 1000 - 30000`.  (3) With
`expires_in = 3600`, a second call strictly inside the 3570-second
validity window performs no second fetch and returns the cached token.
(4) With `expires_in = 100`, a second call 75 seconds later starts a
second fetch. -/
theorem tokenManager_cache_expiry :
    (∀ (t : Int) (s : TMState),
      ((∃ tok, (getTokenStep t s).2 = .immediate tok) ∧
        fetchCount (getTokenStep t s).1 = fetchCount s)
      ↔ ∃ tok e, s.token = some tok ∧ tok ≠ "" ∧ s.expiresAt = some e ∧ t < e) ∧
    (∀ (t : Int) (tok : String) (ei : Int) (s : TMState) (i : Nat),
      s.refreshing = some i → s.promises.get? i = some .pending →
      (settleRefresh t (.ok tok ei) s).token = some tok ∧
      (settleRefresh t (.ok tok ei) s).expiresAt
        = some (t + ei * 1000 - 30000)) ∧
    (∀ (t0 t1 : Int) (tok : String), tok ≠ "" → t1 < t0 + 3570000 →
      fetchCount
        (run TMState.cold
          [.call t0, .settle t0 (.ok tok 3600), .call t1]).1 = 1 ∧
      (run TMState.cold [.call t0, .settle t0 (.ok tok 3600), .call t1]).2
        = [.awaits 0, .immediate tok]) ∧
    (∀ (t0 : Int) (tok : String),
      fetchCount
        (run TMState.cold
          [.call t0, .settle t0 (.ok tok 100), .call (t0 + 75000)]).1 = 2) := by
  refine ⟨?_, ?_, ?_, ?_⟩
  · intro t s
    constructor
    · rintro ⟨⟨tok, hout⟩, -⟩
      by_cases hc : cacheHit t s = true
      · unfold cacheHit at hc
        rcases ht : s.token with _ | tk
        · rw [ht] at hc; simp at hc
        · rcases he : s.expiresAt with _ | e
          · rw [ht, he] at hc; simp at hc
          · rw [ht, he] at hc
            simp only [Bool.and_eq_true, bne_iff_ne, ne_eq,
              decide_eq_true_eq] at hc
            exact ⟨tk, e, rfl, hc.1, rfl, hc.2⟩
      · unfold getTokenStep at hout
        rw [if_neg hc] at hout
        rcases hr : s.refreshing with _ | i
        · rw [hr] at hout; simp at hout
        · rw [hr] at hout; simp at hout
    · rintro ⟨tok, e, ht, hne, he, hlt⟩
      have hc : cacheHit t s = true := by
        unfold cacheHit
        rw [ht, he]
        simp [hne, hlt]
      constructor
      · refine ⟨s.token.getD "", ?_⟩
        unfold getTokenStep
        rw [if_pos hc]
      · unfold getTokenStep
        rw [if_pos hc]
  · intro t tok ei s i hr hget
    have hs : settleRefresh t (.ok tok ei) s =
        { token := some tok, expiresAt := some (t + ei * 1000 - 30000)
          refreshing := none
          promises := s.promises.set i (.resolved tok) } := by
      simp only [settleRefresh, hr]
      rw [if_pos hget]
    rw [hs]
    exact ⟨rfl, rfl⟩
  · intro t0 t1 tok hne hlt
    have hstep1 : step TMState.cold (Event.call t0) =
        (⟨none, none, some 0, [.pending]⟩, some (.awaits 0)) := rfl
    have hstep2 : step (⟨none, none, some 0, [.pending]⟩ : TMState)
        (Event.settle t0 (.ok tok 3600)) =
        (⟨some tok, some (t0 + 3600 * 1000 - 30000), none, [.resolved tok]⟩,
         none) := rfl
    have hc : cacheHit t1
        (⟨some tok, some (t0 + 3600 * 1000 - 30000), none,
          [.resolved tok]⟩ : TMState) = true := by
      unfold cacheHit
      simp only [Bool.and_eq_true, bne_iff_ne, ne_eq, decide_eq_true_eq]
      exact ⟨hne, by omega⟩
    have hstep3 : step (⟨some tok, some (t0 + 3600 * 1000 - 30000), none,
        [.resolved tok]⟩ : TMState) (Event.call t1) =
        (⟨some tok, some (t0 + 3600 * 1000 - 30000), none, [.resolved tok]⟩,
         some (.immediate tok)) := by
      simp only [step, getTokenStep]
      rw [if_pos hc]
      rfl
    have hrun : run TMState.cold
        [.call t0, .settle t0 (.ok tok 3600), .call t1] =
        (⟨some tok, some (t0 + 3600 * 1000 - 30000), none, [.resolved tok]⟩,
         [.awaits 0, .immediate tok]) := by
      simp only [run, hstep1, hstep2, hstep3, Option.toList_some,
        Option.toList_none, List.singleton_append, List.nil_append,
        List.append_nil]
    rw [hrun]
    exact ⟨rfl, rfl⟩
  · intro t0 tok
    have hstep1 : step TMState.cold (Event.call t0) =
        (⟨none, none, some 0, [.pending]⟩, some (.awaits 0)) := rfl
    have hstep2 : step (⟨none, none, some 0, [.pending]⟩ : TMState)
        (Event.settle t0 (.ok tok 100)) =
        (⟨some tok, some (t0 + 100 * 1000 - 30000), none, [.resolved tok]⟩,
         none) := rfl
    have hcn : ¬ (cacheHit (t0 + 75000)
        (⟨some tok, some (t0 + 100 * 1000 - 30000), none,
          [.resolved tok]⟩ : TMState) = true) := by
      unfold cacheHit
      simp only [Bool.and_eq_true, bne_iff_ne, ne_eq, decide_eq_true_eq]
      rintro ⟨-, h⟩
      omega
    have hstep3 : step (⟨some tok, some (t0 + 100 * 1000 - 30000), none,
        [.resolved tok]⟩ : TMState) (Event.call (t0 + 75000)) =
        (⟨some tok, some (t0 + 100 * 1000 - 30000), some 1,
          [.resolved tok, .pending]⟩, some (.awaits 1)) := by
      simp only [step, getTokenStep]
      rw [if_neg hcn]
      rfl
    have hrun : run TMState.cold
        [.call t0, .settle t0 (.ok tok 100), .call (t0 + 75000)] =
        (⟨some tok, some (t0 + 100 * 1000 - 30000), some 1,
          [.resolved tok, .pending]⟩, [.awaits 0, .awaits 1]) := by
      simp only [run, hstep1, hstep2, hstep3, Option.toList_some,
        Option.toList_none, List.singleton_append, List.nil_append,
        List.append_nil]
    rw [hrun]
    rfl

/-- Witness for C3: with the fetch succeeding at time 0 with
`expires_in = 3600` and token "t", a second call at time 1000 performs no
second fetch and returns "t"; with `expires_in = 100`, a second call at
time 75000 starts a second fetch; and the store rule holds on a concrete
in-flight state. -/
theorem tokenManager_cache_expiry_witness :
    ((settleRefresh 5 (.ok "tk" 3600)
        ⟨none, none, some 0, [.pending]⟩).token = some "tk" ∧
      (settleRefresh 5 (.ok "tk" 3600)
        ⟨none, none, some 0, [.pending]⟩).expiresAt
        = some (5 + 3600 * 1000 - 30000)) ∧
    (fetchCount
        (run TMState.cold
          [.call 0, .settle 0 (.ok "t" 3600), .call 1000]).1 = 1 ∧
      (run TMState.cold [.call 0, .settle 0 (.ok "t" 3600), .call 1000]).2
        = [.awaits 0, .immediate "t"]) ∧
    fetchCount
      (run TMState.cold
        [.call 0, .settle 0 (.ok "t" 100), .call (0 + 75000)]).1 = 2 :=
  ⟨tokenManager_cache_expiry.2.1 5 "tk" 3600 ⟨none, none, some 0, [.pending]⟩ 0
      rfl rfl,
   tokenManager_cache_expiry.2.2.1 0 1000 "t" (by decide) (by decide),
   tokenManager_cache_expiry.2.2.2 0 "t"⟩

/-- C10: when the fetch reports `expires_in ≤ 30` seconds, the stored
expiry `t + expires_in * 1000 - 30000` is not later than the storing
time, so for every later time the cache check fails and the next
`getToken()` call starts a new fetch instead of returning the cached
token. -/
theorem tokenManager_short_expiry_never_cached :
    ∀ (s : TMState) (i : Nat) (ts t ei : Int) (tok : String),
      s.refreshing = some i → s.promises.get? i = some .pending →
      ei ≤ 30 → ts ≤ t →
      (settleRefresh ts (.ok tok ei) s).expiresAt
        = some (ts + ei * 1000 - 30000) ∧
      ts + ei * 1000 - 30000 ≤ ts ∧
      cacheHit t (settleRefresh ts (.ok tok ei) s) = false ∧
      (getTokenStep t (settleRefresh ts (.ok tok ei) s)).2
        = .awaits (fetchCount (settleRefresh ts (.ok tok ei) s)) ∧
      fetchCount (getTokenStep t (settleRefresh ts (.ok tok ei) s)).1
        = fetchCount (settleRefresh ts (.ok tok ei) s) + 1 := by
  intro s i ts t ei tok hr hget hei hts
  have hs : settleRefresh ts (.ok tok ei) s =
      { token := some tok, expiresAt := some (ts + ei * 1000 - 30000)
        refreshing := none
        promises := s.promises.set i (.resolved tok) } := by
    simp only [settleRefresh, hr]
    rw [if_pos hget]
  rw [hs]
  have harith : ¬ (t < ts + ei * 1000 - 30000) := by omega
  have hc : cacheHit t
      ({ token := some tok, expiresAt := some (ts + ei * 1000 - 30000)
         refreshing := none
         promises := s.promises.set i (.resolved tok) } : TMState) = false := by
    unfold cacheHit
    simp [harith]
  refine ⟨rfl, by omega, hc, ?_, ?_⟩
  · simp only [getTokenStep, hc, Bool.false_eq_true, if_false, fetchCount]
  · simp only [getTokenStep, hc, Bool.false_eq_true, if_false, fetchCount,
      List.length_append, List.length_cons, List.length_nil]

/-- Witness for C10: a fetch settling at time 1000 with `expires_in = 30`
stores expiry 1000, the cache check at time 2000 fails, and the call at
time 2000 starts a second fetch. -/
theorem tokenManager_short_expiry_never_cached_witness :
    (settleRefresh 1000 (.ok "tk" 30)
        ⟨none, none, some 0, [.pending]⟩).expiresAt
      = some (1000 + 30 * 1000 - 30000) ∧
    (1000 : Int) + 30 * 1000 - 30000 ≤ 1000 ∧
    cacheHit 2000
      (settleRefresh 1000 (.ok "tk" 30) ⟨none, none, some 0, [.pending]⟩)
      = false ∧
    (getTokenStep 2000
        (settleRefresh 1000 (.ok "tk" 30) ⟨none, none, some 0, [.pending]⟩)).2
      = .awaits (fetchCount
          (settleRefresh 1000 (.ok "tk" 30)
            ⟨none, none, some 0, [.pending]⟩)) ∧
    fetchCount
      (getTokenStep 2000
        (settleRefresh 1000 (.ok "tk" 30)
          ⟨none, none, some 0, [.pending]⟩)).1
      = fetchCount
          (settleRefresh 1000 (.ok "tk" 30)
            ⟨none, none, some 0, [.pending]⟩) + 1 :=
  tokenManager_short_expiry_never_cached ⟨none, none, some 0, [.pending]⟩ 0
    1000 2000 30 "tk" rfl rfl (by decide) (by decide)

/-- C4 counterexample: a token-fetch failure does NOT cross the execute
boundary unmodified.  The token fetch runs inside the single try block,
so its failure reaches the same catch cascade; a plain `Error` (no code,
no response) matches no rule and is wrapped into the
`HttpServerError(500)` catch-all rather than being re-thrown as-is. -/
theorem rateOperation_token_failure_reclassified_cex :
    execute (.error c4TokenFailure) (.ok { RateResponse := none })
      = .error (.httpServerError 500 true) ∧
    ClassifiedError.httpServerError 500 true ≠ .rethrown c4TokenFailure :=
  ⟨rfl, by decide⟩

/-- C4 amended: a token-fetch failure is caught by the classification
cascade of execute exactly like a transport failure; it is re-thrown
as-is only when it matches the pre-classified shape, while for example a
plain `Error` becomes `HttpServerError(500, retryable)` and a 401
response from the token endpoint becomes `AuthenticationError`. -/
theorem rateOperation_token_failure_classified :
    (∀ (e : JsError) (tr : Except JsError UpsWireResponse),
      execute (.error e) tr = .error (classifyUpsError e)) ∧
    (∀ tr : Except JsError UpsWireResponse,
      execute (.error c4TokenFailure) tr
        = .error (.httpServerError 500 true)) ∧
    (∀ tr : Except JsError UpsWireResponse,
      execute (.error c4Token401Failure) tr = .error .authenticationError) :=
  ⟨fun _ _ => rfl, fun _ => rfl, fun _ => rfl⟩

/-- C5 counterexample: the claim's rule list, which has no
missing-field-message rule, predicts the `HttpServerError(500)`
catch-all for a failure whose only recognizable feature is the word
missing in its message; the code instead classifies it as
`MalformedResponseError` (lines 139-145). -/
theorem rateOperation_missing_message_reclassified_cex :
    execute (.ok "tok") (.error c5MissingFailure)
      = .error (.malformedResponseError (some "body")) ∧
    ClassifiedError.malformedResponseError (some "body")
      ≠ .httpServerError 500 true :=
  ⟨rfl, by decide⟩

lemma parseUpsResponse_ok (resp : UpsWireResponse) (rr : UpsRateResponse)
    (rs : UpsRatedShipment) (h1 : resp.RateResponse = some rr)
    (h2 : rr.RatedShipment = some rs) :
    parseUpsResponse resp = .ok [quoteOf rr rs] := by
  obtain ⟨ro⟩ := resp
  have h1' : ro = some rr := h1
  subst h1'
  obtain ⟨rsOpt, rb⟩ := rr
  have h2' : rsOpt = some rs := h2
  subst h2'
  rfl

lemma any4xx_eq (o : Option Int) :
    (o.any fun st => st != 0 && decide (400 ≤ st) && decide (st < 500))
      = (o.any fun st => decide (400 ≤ st) && decide (st < 500)) := by
  cases o with
  | none => rfl
  | some st =>
    show (st != 0 && decide (400 ≤ st) && decide (st < 500))
      = (decide (400 ≤ st) && decide (st < 500))
    by_cases h : (400 : Int) ≤ st
    · have h0 : st ≠ 0 := by omega
      simp [h, h0]
    · simp [h]

lemma any5xx_eq (o : Option Int) :
    (o.any fun st => st != 0 && decide (500 ≤ st))
      = (o.any fun st => decide (500 ≤ st)) := by
  cases o with
  | none => rfl
  | some st =>
    show (st != 0 && decide (500 ≤ st)) = decide (500 ≤ st)
    by_cases h : (500 : Int) ≤ st
    · have h0 : st ≠ 0 := by omega
      simp [h, h0]
    · simp [h]

/-- C5 amended: on transport failure, execute throws exactly one
classified error, chosen by the source cascade, which agrees everywhere
with the spec-worded chain once the missing-field-message rule is
inserted between the JSON rule and the pre-classified re-throw rule. -/
theorem rateOperation_classification_chain :
    ∀ (tok : String) (e : JsError),
      execute (.ok tok) (.error e) = .error (classifyUpsError e) ∧
      classifyUpsError e = classifyChainSpec e := by
  intro tok e
  refine ⟨rfl, ?_⟩
  unfold classifyUpsError classifyChainSpec
  simp only [any4xx_eq, any5xx_eq]

/-- C6 (code bug): `parseUpsResponse` fails with a missing-field
condition exactly when the envelope or the rated-shipment section is
absent, and execute wraps that failure as `MalformedResponseError` — but
the raw-response payload is empty, not the raw body: the catch block
reads `error.response?.data` off the parse `Error`, which carries no
response property, so `JSON.stringify(undefined)` (undefined) is stored
instead of the body that was actually received. -/
theorem rateOperation_missing_field_raw_body_lost :
    (∀ resp : UpsWireResponse,
      (∃ m, parseUpsResponse resp = .error m) ↔
        (resp.RateResponse = none ∨
          ∃ rr, resp.RateResponse = some rr ∧ rr.RatedShipment = none)) ∧
    parseUpsResponse { RateResponse := none }
      = .error "Invalid UPS response: missing RateResponse" ∧
    execute (.ok "tok") (.ok { RateResponse := none })
      = .error (.malformedResponseError none) := by
  refine ⟨?_, rfl, rfl⟩
  intro resp
  constructor
  · rintro ⟨m, hm⟩
    rcases h1 : resp.RateResponse with _ | rr
    · exact Or.inl rfl
    · rcases h2 : rr.RatedShipment with _ | rs
      · exact Or.inr ⟨rr, rfl, h2⟩
      · rw [parseUpsResponse_ok resp rr rs h1 h2] at hm
        exact Except.noConfusion hm
  · rintro (h | ⟨rr, h1, h2⟩)
    · refine ⟨"Invalid UPS response: missing RateResponse", ?_⟩
      obtain ⟨ro⟩ := resp
      have h' : ro = none := h
      subst h'
      rfl
    · refine ⟨"Invalid UPS response: missing RatedShipment", ?_⟩
      obtain ⟨ro⟩ := resp
      have h1' : ro = some rr := h1
      subst h1'
      obtain ⟨rsOpt, rb⟩ := rr
      have h2' : rsOpt = none := h2
      subst h2'
      rfl

/-- C7: for every wire response with the envelope and rated shipment
present, `fromWire` returns exactly one quote, whose amount defaults to
0 and currency to "USD" when those charges are absent, whose base and
transportation charges come from the rated-package section (only the
first entry when that section is an array), and whose alerts list is the
per-shipment descriptions followed by the per-response descriptions, or
undefined when that concatenation is empty. -/
theorem parseUpsResponse_quote_shape :
    ∀ (resp : UpsWireResponse) (rr : UpsRateResponse) (rs : UpsRatedShipment),
      resp.RateResponse = some rr → rr.RatedShipment = some rs →
      ∃ q, parseUpsResponse resp = .ok [q] ∧
        q.carrier = "UPS" ∧
        q.amount = (rs.TotalCharges.bind (·.MonetaryValue)).getD 0 ∧
        q.currency = jsOr (rs.TotalCharges.bind (·.CurrencyCode)) "USD" ∧
        q.baseCharge = ((firstRatedPackage rs.RatedPackage).bind
          (·.BaseServiceCharge)).bind (·.MonetaryValue) ∧
        q.transportationCharge = ((firstRatedPackage rs.RatedPackage).bind
          (·.TransportationCharges)).bind (·.MonetaryValue) ∧
        (∀ p ps, rs.RatedPackage = .array (p :: ps) →
          q.baseCharge = p.BaseServiceCharge.bind (·.MonetaryValue) ∧
          q.transportationCharge
            = p.TransportationCharges.bind (·.MonetaryValue)) ∧
        (shipmentAlerts rs ++ responseAlerts rr = [] → q.alerts = none) ∧
        (shipmentAlerts rs ++ responseAlerts rr ≠ [] →
          q.alerts = some (shipmentAlerts rs ++ responseAlerts rr)) := by
  intro resp rr rs h1 h2
  refine ⟨quoteOf rr rs, parseUpsResponse_ok resp rr rs h1 h2,
    rfl, rfl, rfl, rfl, rfl, ?_, ?_, ?_⟩
  · intro p ps hrp
    show (((firstRatedPackage rs.RatedPackage).bind
        (·.BaseServiceCharge)).bind (·.MonetaryValue)
        = p.BaseServiceCharge.bind (·.MonetaryValue)) ∧
      (((firstRatedPackage rs.RatedPackage).bind
        (·.TransportationCharges)).bind (·.MonetaryValue)
        = p.TransportationCharges.bind (·.MonetaryValue))
    rw [hrp]
    exact ⟨rfl, rfl⟩
  · intro hA
    show (if (shipmentAlerts rs ++ responseAlerts rr).length > 0
      then some (shipmentAlerts rs ++ responseAlerts rr) else none) = none
    rw [hA]
    rfl
  · intro hB
    show (if (shipmentAlerts rs ++ responseAlerts rr).length > 0
      then some (shipmentAlerts rs ++ responseAlerts rr) else none)
      = some (shipmentAlerts rs ++ responseAlerts rr)
    rw [if_pos (List.length_pos.mpr hB)]

/-- Witness for C7: a complete concrete response with total charges
15.54 USD, a two-entry rated-package array, one shipment alert and one
response alert. -/
theorem parseUpsResponse_quote_shape_witness :
    ∃ q, parseUpsResponse c7Response = .ok [q] ∧
      q.carrier = "UPS" ∧
      q.amount
        = (c7RatedShipment.TotalCharges.bind (·.MonetaryValue)).getD 0 ∧
      q.currency
        = jsOr (c7RatedShipment.TotalCharges.bind (·.CurrencyCode)) "USD" ∧
      q.baseCharge = ((firstRatedPackage c7RatedShipment.RatedPackage).bind
        (·.BaseServiceCharge)).bind (·.MonetaryValue) ∧
      q.transportationCharge
        = ((firstRatedPackage c7RatedShipment.RatedPackage).bind
          (·.TransportationCharges)).bind (·.MonetaryValue) ∧
      (∀ p ps, c7RatedShipment.RatedPackage = .array (p :: ps) →
        q.baseCharge = p.BaseServiceCharge.bind (·.MonetaryValue) ∧
        q.transportationCharge
          = p.TransportationCharges.bind (·.MonetaryValue)) ∧
      (shipmentAlerts c7RatedShipment ++ responseAlerts c7RateResponse = [] →
        q.alerts = none) ∧
      (shipmentAlerts c7RatedShipment ++ responseAlerts c7RateResponse ≠ [] →
        q.alerts
          = some (shipmentAlerts c7RatedShipment
              ++ responseAlerts c7RateResponse)) :=
  parseUpsResponse_quote_shape c7Response c7RateResponse c7RatedShipment
    rfl rfl

/-- C8 counterexample: two invocations of the mapper on identical inputs
produce different wire documents, because each call draws a fresh random
`TransactionIdentifier` (`randomUUID()` in the source, the explicit
`uuid` argument here). -/
theorem mapToUpsRequest_not_deterministic_cex :
    mapToUpsRequest c8Request "S1" "uuid-a"
      ≠ mapToUpsRequest c8Request "S1" "uuid-b" := by
  decide

/-- C8 amended: the mapper performs no I/O and keeps no state, and is
deterministic in everything except the per-call random
`TransactionIdentifier`: two runs on the same request and account agree
on every other field, and the identifier is exactly the random draw. -/
theorem mapToUpsRequest_deterministic_up_to_uuid :
    ∀ (request : RateRequest) (shipperNumber uuid uuid2 : String),
      setTransactionIdentifier (mapToUpsRequest request shipperNumber uuid) ""
        = setTransactionIdentifier
            (mapToUpsRequest request shipperNumber uuid2) "" ∧
      (mapToUpsRequest request shipperNumber
        uuid).RateRequest.Request.TransactionReference.TransactionIdentifier
        = uuid :=
  fun _ _ _ _ => ⟨rfl, rfl⟩

/-- C9 counterexample: the parser applies no sign check, so a wire
response whose total-charge monetary value is negative yields a quote
with a negative amount. -/
theorem rateQuote_negative_amount_cex :
    parseUpsResponse c9Response = .ok [c9Quote] ∧ c9Quote.amount < 0 :=
  ⟨rfl, by decide⟩

/-- C9 amended: every quote the parser produces carries a non-degenerate
currency code and an amount, and the amount is non-negative whenever the
wire total-charge value is absent or non-negative (the parser copies the
wire value without a sign check). -/
theorem rateQuote_amount_currency :
    ∀ (resp : UpsWireResponse) (rr : UpsRateResponse) (rs : UpsRatedShipment),
      resp.RateResponse = some rr → rr.RatedShipment = some rs →
      0 ≤ (rs.TotalCharges.bind (·.MonetaryValue)).getD 0 →
      ∃ q, parseUpsResponse resp = .ok [q] ∧ q.currency ≠ "" ∧
        0 ≤ q.amount := by
  intro resp rr rs h1 h2 hmv
  refine ⟨quoteOf rr rs, parseUpsResponse_ok resp rr rs h1 h2, ?_, hmv⟩
  show jsOr (rs.TotalCharges.bind (·.CurrencyCode)) "USD" ≠ ""
  unfold jsOr
  rcases hcc : rs.TotalCharges.bind (·.CurrencyCode) with _ | s
  · simp
  · by_cases hs : s = "" <;> simp [hs]

/-- Witness for C9: a response whose rated shipment has no total-charges
block produces a quote with currency "USD" and amount 0. -/
theorem rateQuote_amount_currency_witness :
    ∃ q, parseUpsResponse zeroResponse = .ok [q] ∧
      q.currency ≠ "" ∧ 0 ≤ q.amount :=
  rateQuote_amount_currency zeroResponse zeroRateResponse zeroShipment
    rfl rfl (by decide)

end ShippingCarrier
